import Mathlib

/-!
Verification of `pybix/graph.py` (class `GraphImage`): a shallow embedding of
the configuration resolution, base-URL normalization, login POST, streaming
chart download, and the unimplemented ad-hoc graphing stub, together with
theorems about them.

Strings are Lean `String`s; byte chunks from the streamed HTTP response are
`List Nat`; the observable effects of a call (HTTP requests, file operations,
writes to standard output) are recorded as a list of `Event`s.
-/

/-- Python truthiness of an optional string value: `None` and `""` are falsy,
every other string is truthy. -/
def truthy : Option String → Bool
  | none => false
  | some s => !(s == "")

/-- Python `a or b` where both operands are optional strings. -/
def pyOr (a b : Option String) : Option String :=
  if truthy a then a else b

/-- Python `a or d` where `d` is a string literal (the final default of an
`or` chain). -/
def pyOrD (a : Option String) (d : String) : String :=
  if truthy a then a.getD "" else d

/-- Embeds `arg or os.environ.get(VAR) or default`: one configuration field
resolved from the explicit argument, the environment variable snapshot and a
hardcoded default (`graph.py` lines 30-31 and 38-41). -/
def resolveSetting (arg envVar : Option String) (dflt : String) : String :=
  pyOrD (pyOr arg envVar) dflt

/-- The literal `"/api_jsonrpc.php"` from `graph.py`. -/
def apiSuffix : String := "/api_jsonrpc.php"

/-- The hardcoded default base URL `'http://localhost/zabbix'`. -/
def defaultServer : String := "http://localhost/zabbix"

/-- The hardcoded default username `'Admin'`. -/
def defaultUser : String := "Admin"

/-- The hardcoded default password `'zabbix'`. -/
def defaultPassword : String := "zabbix"

/-- Does `pat` occur as a contiguous substring of `l`?  (Python `pat in s`,
specialised to character lists.) -/
def containsPat (pat : List Char) : List Char → Bool
  | [] => pat.isEmpty
  | c :: cs => pat.isPrefixOf (c :: cs) || containsPat pat cs

/-- One left-to-right pass removing every (non-overlapping) occurrence of the
non-empty pattern `pat`, exactly as Python's `s.replace(pat, "")` does: at each
position, if `pat` matches it is skipped over and scanning resumes after it,
otherwise the character is kept.  `fuel` bounds the recursion; it is
initialised to the length of the scanned list, which one step never
increases, so the `fuel = 0` guard is never reached on a non-empty list. -/
def stripOccFuel (pat : List Char) : Nat → List Char → List Char
  | _, [] => []
  | 0, l => l
  | Nat.succ n, c :: cs =>
      if pat.isPrefixOf (c :: cs) then stripOccFuel pat n (cs.drop (pat.length - 1))
      else c :: stripOccFuel pat n (cs)

/-- Python `s.replace(pat, "")` for a non-empty pattern, on character lists. -/
def stripOcc (pat l : List Char) : List Char :=
  stripOccFuel pat l.length l

/-- Python `s.endswith(pat)`. -/
def pyEndsWith (s pat : String) : Bool :=
  pat.data.isSuffixOf s.data

/-- Embeds `graph.py` lines 32-34:
`url.replace("/api_jsonrpc.php", "") if not url.endswith('/api_jsonrpc.php') else url`,
i.e. a URL that ends with the suffix is kept verbatim, and otherwise every
occurrence of the suffix anywhere in the URL is removed. -/
def normalizeBaseUrl (url : String) : String :=
  if pyEndsWith url apiSuffix then url
  else String.mk (stripOcc apiSuffix.data url.data)

/-- Observable effects of `GraphImage` methods: the time-validator call, HTTP
requests (the GET carries the session's cookie jar and its streaming flag),
and file/stdout writes. -/
inductive Event where
  | validate (from_date to_date : String)
  | post (url : String) (payload : List (String × String))
  | get (url : String) (stream : Bool) (cookies : List (String × String))
  | fOpen (path : String)
  | fWrite (path : String) (bytes : List Nat)
  | fClose (path : String)
  | stdoutWrite (bytes : List Nat)
deriving DecidableEq

/-- The state a constructed `GraphImage` carries: the normalized `BASE_URL`
and the `requests.Session` modelled by the cookie jar it accumulated at
login. -/
structure Session where
  BASE_URL : String
  cookies : List (String × String)
deriving DecidableEq

/-- Embeds `GraphImage.__init__` (`graph.py` lines 17-45).  The environment
snapshot (`envServer`, `envUser`, `envPassword`) is passed explicitly; the
login response is modelled by its status code `loginStatus` (which the code
never inspects: the return value of `self.SESSION.post` is discarded, so
construction cannot raise on a non-2xx status) and by the cookies
`loginCookies` the server set, which `requests.Session` retains.  Returns the
constructed session and the trace of issued HTTP requests. -/
def GraphImage.init (base_url username password : Option String)
    (envServer envUser envPassword : Option String)
    (loginStatus : Nat) (loginCookies : List (String × String)) :
    Session × List Event :=
  let url := resolveSetting base_url envServer defaultServer
  let burl := normalizeBaseUrl url
  let payload := [("name", resolveSetting username envUser defaultUser),
                  ("password", resolveSetting password envPassword defaultPassword),
                  ("enter", "Sign in")]
  ({ BASE_URL := burl, cookies := loginCookies },
   [Event.post (burl ++ "/index.php") payload])

/-- Embeds `GraphImage._validate_times` (`graph.py` lines 113-116): body is
`pass`, so it accepts any pair and returns nothing. -/
def GraphImage._validate_times (from_date to_date : String) : Unit := ()

/-- The chart-request URL built by the f-string at `graph.py` lines 71-72. -/
def chartUrl (BASE_URL graph_id from_date to_date width height : String) : String :=
  BASE_URL ++ "/chart2.php?graphid=" ++ graph_id ++ "&from=" ++ from_date
    ++ "&to=" ++ to_date ++ "&profileIdx=web.graphs.filter&width=" ++ width
    ++ "&height=" ++ height

/-- The output file path `f"{output_path}/graph-{graph_id}.png"` after
`output_path = output_path or os.getcwd()` (`graph.py` lines 76-77). -/
def savePath (output_path : Option String) (cwd : String) (graph_id : String) : String :=
  pyOrD output_path cwd ++ "/graph-" ++ graph_id ++ ".png"

/-- The chunks `iter_content` yields before the stream ends: all of `chunks`
when the stream completes (`errAfter = none`), or the first `k` when an
exception interrupts the iteration after `k` chunks (`errAfter = some k`). -/
def deliveredChunks (chunks : List (List Nat)) (errAfter : Option Nat) : List (List Nat) :=
  match errAfter with
  | none => chunks
  | some k => chunks.take k

/-- Embeds `GraphImage.get_by_graph_id` (`graph.py` lines 47-85).  The
streamed response body is the chunk sequence `chunks` as yielded by
`iter_content`; `errAfter = some k` models an exception raised by the stream
after `k` chunks were delivered (`none`: the stream completes).  The loop
keeps only truthy (non-empty) chunks — `if chunk:` — and writes them in
order to the file (when `save`) or to `sys.stdout.buffer` (otherwise).  The
two `with` blocks guarantee the file is closed on every exit path, so the
trace always records `fClose` after the writes; the second component reports
whether the streaming exception propagates. -/
def GraphImage.get_by_graph_id (s : Session) (graph_id : String)
    (from_date to_date width height : String) (save : Bool)
    (output_path : Option String) (cwd : String)
    (chunks : List (List Nat)) (errAfter : Option Nat) : List Event × Bool :=
  let url := chartUrl s.BASE_URL graph_id from_date to_date width height
  let writes := (deliveredChunks chunks errAfter).filter (fun c => !c.isEmpty)
  let raised := errAfter.isSome
  if save then
    let path := savePath output_path cwd graph_id
    (Event.validate from_date to_date :: Event.get url true s.cookies ::
       Event.fOpen path :: (writes.map (Event.fWrite path) ++ [Event.fClose path]),
     raised)
  else
    (Event.validate from_date to_date :: Event.get url true s.cookies ::
       writes.map Event.stdoutWrite,
     raised)

/-- Errors a method can signal; `graph.py` line 111 raises
`NotImplementedError("Not yet added")`. -/
inductive PyExc where
  | notImplementedError (msg : String)
deriving DecidableEq

/-- Embeds `GraphImage.get_by_itemids` (`graph.py` lines 87-111): the body
unconditionally raises `NotImplementedError("Not yet added")`. -/
def GraphImage.get_by_itemids (item_ids : List String) (type : Nat)
    (from_date to_date width height : String) (save : Bool)
    (output_path : Option String) : Except PyExc Unit :=
  Except.error (PyExc.notImplementedError ("Not yet added"))

/-- The sequence of byte chunks written to file `path` in a trace, in
order. -/
def fileWrites (path : String) (evs : List Event) : List (List Nat) :=
  evs.filterMap (fun e => match e with
    | Event.fWrite p b => if p = path then some b else none
    | _ => none)

/-- The bytes the file at `path` contains after a trace (its writes
concatenated in order). -/
def fileContent (path : String) (evs : List Event) : List Nat :=
  (fileWrites path evs).flatten

/-- The sequence of byte chunks written to standard output in a trace, in
order. -/
def stdoutWrites (evs : List Event) : List (List Nat) :=
  evs.filterMap (fun e => match e with
    | Event.stdoutWrite b => some b
    | _ => none)

/-- The bytes written to standard output in a trace, concatenated in
order. -/
def stdoutBytes (evs : List Event) : List Nat :=
  (stdoutWrites evs).flatten

/-- The GET requests of a trace: URL, streaming flag and attached cookie
jar, in order. -/
def getRequests (evs : List Event) : List (String × Bool × List (String × String)) :=
  evs.filterMap (fun e => match e with
    | Event.get url stream ck => some (url, stream, ck)
    | _ => none)

/-- The POST requests of a trace: URL and form payload, in order. -/
def postRequests (evs : List Event) : List (String × List (String × String)) :=
  evs.filterMap (fun e => match e with
    | Event.post url payload => some (url, payload)
    | _ => none)

/-! ## Helper lemmas -/

theorem truthy_some_of_ne {s : String} (h : s ≠ "") : truthy (some s) = true := by
  simp [truthy, h]

theorem resolveSetting_arg {s : String} (h : s ≠ "") (env : Option String) (d : String) :
    resolveSetting (some s) env d = s := by
  simp [resolveSetting, pyOr, pyOrD, truthy_some_of_ne h]

theorem resolveSetting_env {t : String} (h : t ≠ "") (d : String) :
    resolveSetting none (some t) d = t := by
  simp [resolveSetting, pyOr, pyOrD, truthy, h]

theorem flatten_filter_nonempty (l : List (List Nat)) :
    (l.filter (fun c => !c.isEmpty)).flatten = l.flatten := by
  induction l with
  | nil => rfl
  | cons c cs ih =>
      by_cases hc : c.isEmpty
      · have hnil : c = [] := List.isEmpty_iff.mp hc
        simp [List.filter_cons, hc, hnil, ih]
      · simp [List.filter_cons, hc, ih]

theorem stripOccFuel_of_not_contains (pat : List Char) (n : Nat) (l : List Char)
    (h : containsPat pat l = false) : stripOccFuel pat n l = l := by
  induction l generalizing n with
  | nil => cases n <;> rfl
  | cons c cs ih =>
      rw [containsPat] at h
      rw [Bool.or_eq_false_iff] at h
      cases n with
      | zero => rfl
      | succ m =>
          rw [stripOccFuel]
          simp [h.1, ih m h.2]

theorem stripOcc_of_not_contains (pat l : List Char)
    (h : containsPat pat l = false) : stripOcc pat l = l :=
  stripOccFuel_of_not_contains pat l.length l h

theorem fileWrites_map_fWrite (p : String) (ws : List (List Nat)) :
    fileWrites p (ws.map (Event.fWrite p)) = ws := by
  unfold fileWrites
  induction ws with
  | nil => rfl
  | cons w ws ih => simpa [List.filterMap_cons] using ih

theorem stdoutWrites_map_stdoutWrite (ws : List (List Nat)) :
    stdoutWrites (ws.map Event.stdoutWrite) = ws := by
  unfold stdoutWrites
  induction ws with
  | nil => rfl
  | cons w ws ih => simpa [List.filterMap_cons] using ih

theorem getRequests_map_fWrite (p : String) (ws : List (List Nat)) :
    getRequests (ws.map (Event.fWrite p)) = [] := by
  unfold getRequests
  induction ws with
  | nil => rfl
  | cons w ws ih => simp [List.filterMap_cons]

theorem getRequests_map_stdoutWrite (ws : List (List Nat)) :
    getRequests (ws.map Event.stdoutWrite) = [] := by
  unfold getRequests
  induction ws with
  | nil => rfl
  | cons w ws ih => simp [List.filterMap_cons]

theorem fileWrites_map_stdoutWrite (p : String) (ws : List (List Nat)) :
    fileWrites p (ws.map Event.stdoutWrite) = [] := by
  unfold fileWrites
  induction ws with
  | nil => rfl
  | cons w ws ih => simp [List.filterMap_cons]

theorem fileWrites_cons_validate (p fd td : String) (l : List Event) :
    fileWrites p (Event.validate fd td :: l) = fileWrites p l := by
  simp [fileWrites, List.filterMap_cons]

theorem fileWrites_cons_get (p u : String) (b : Bool) (ck : List (String × String))
    (l : List Event) : fileWrites p (Event.get u b ck :: l) = fileWrites p l := by
  simp [fileWrites, List.filterMap_cons]

theorem fileWrites_cons_fOpen (p q : String) (l : List Event) :
    fileWrites p (Event.fOpen q :: l) = fileWrites p l := by
  simp [fileWrites, List.filterMap_cons]

theorem fileWrites_cons_fClose (p q : String) (l : List Event) :
    fileWrites p (Event.fClose q :: l) = fileWrites p l := by
  simp [fileWrites, List.filterMap_cons]

theorem fileWrites_append (p : String) (l1 l2 : List Event) :
    fileWrites p (l1 ++ l2) = fileWrites p l1 ++ fileWrites p l2 := by
  simp [fileWrites, List.filterMap_append]

theorem fileWrites_nil (p : String) : fileWrites p [] = [] := rfl

theorem stdoutWrites_cons_validate (fd td : String) (l : List Event) :
    stdoutWrites (Event.validate fd td :: l) = stdoutWrites l := by
  simp [stdoutWrites, List.filterMap_cons]

theorem stdoutWrites_cons_get (u : String) (b : Bool) (ck : List (String × String))
    (l : List Event) : stdoutWrites (Event.get u b ck :: l) = stdoutWrites l := by
  simp [stdoutWrites, List.filterMap_cons]

theorem getRequests_cons_validate (fd td : String) (l : List Event) :
    getRequests (Event.validate fd td :: l) = getRequests l := by
  simp [getRequests, List.filterMap_cons]

theorem getRequests_cons_get (u : String) (b : Bool) (ck : List (String × String))
    (l : List Event) :
    getRequests (Event.get u b ck :: l) = (u, b, ck) :: getRequests l := by
  simp [getRequests, List.filterMap_cons]

theorem getRequests_cons_fOpen (q : String) (l : List Event) :
    getRequests (Event.fOpen q :: l) = getRequests l := by
  simp [getRequests, List.filterMap_cons]

theorem getRequests_cons_fClose (q : String) (l : List Event) :
    getRequests (Event.fClose q :: l) = getRequests l := by
  simp [getRequests, List.filterMap_cons]

theorem getRequests_append (l1 l2 : List Event) :
    getRequests (l1 ++ l2) = getRequests l1 ++ getRequests l2 := by
  simp [getRequests, List.filterMap_append]

theorem getRequests_nil : getRequests [] = [] := rfl

/-- The trace of `get_by_graph_id` with `save = True`, spelled out. -/
theorem save_trace_eq (s : Session) (gid fd td w h : String)
    (op : Option String) (cwd : String) (chunks : List (List Nat))
    (errAfter : Option Nat) :
    (GraphImage.get_by_graph_id s gid fd td w h true op cwd chunks errAfter).1
      = Event.validate fd td
        :: Event.get (chartUrl s.BASE_URL gid fd td w h) true s.cookies
        :: Event.fOpen (savePath op cwd gid)
        :: (((deliveredChunks chunks errAfter).filter (fun c => !c.isEmpty)).map
              (Event.fWrite (savePath op cwd gid))
            ++ [Event.fClose (savePath op cwd gid)]) := rfl

/-- The trace of `get_by_graph_id` with `save = False`, spelled out. -/
theorem stdout_trace_eq (s : Session) (gid fd td w h : String)
    (op : Option String) (cwd : String) (chunks : List (List Nat))
    (errAfter : Option Nat) :
    (GraphImage.get_by_graph_id s gid fd td w h false op cwd chunks errAfter).1
      = Event.validate fd td
        :: Event.get (chartUrl s.BASE_URL gid fd td w h) true s.cookies
        :: ((deliveredChunks chunks errAfter).filter (fun c => !c.isEmpty)).map
             Event.stdoutWrite := rfl

/-! ## Claim theorems -/

/-- Claim C1: for each configuration field, resolution follows strict
precedence — a (non-empty) explicit argument always wins over the environment
variable, which always wins over the hardcoded default; `resolveSetting` is
the resolver `GraphImage.init` applies to each of the three fields with its
field's environment variable and default. -/
theorem config_resolution_precedence (s t d : String) (env : Option String)
    (hs : s ≠ "") (ht : t ≠ "") :
    resolveSetting (some s) env d = s
    ∧ resolveSetting none (some t) d = t
    ∧ resolveSetting none none d = d :=
  ⟨resolveSetting_arg hs env d, resolveSetting_env ht d, rfl⟩

/-- Witness for C1 at concrete values, covering argument-present,
argument-absent-with-environment, and both-absent for the base-URL field. -/
theorem config_resolution_precedence_witness :
    resolveSetting (some ("http://a/zabbix")) (some ("http://b/zabbix")) defaultServer
        = "http://a/zabbix"
    ∧ resolveSetting none (some ("http://b/zabbix")) defaultServer = "http://b/zabbix"
    ∧ resolveSetting none none defaultServer = defaultServer :=
  config_resolution_precedence ("http://a/zabbix") ("http://b/zabbix") defaultServer
    (some ("http://b/zabbix")) (by decide) (by decide)

/-- Claim C2 counterexample: `"http://example.com/api_jsonrpc.php/x"` does not
end with `/api_jsonrpc.php` and so, per the claim, should be stored unchanged;
the code removes the inner occurrence and stores `"http://example.com/x"`. -/
theorem normalize_strips_inner_occurrence :
    pyEndsWith ("http://example.com/api_jsonrpc.php/x") apiSuffix = false
    ∧ normalizeBaseUrl ("http://example.com/api_jsonrpc.php/x")
        ≠ "http://example.com/api_jsonrpc.php/x"
    ∧ normalizeBaseUrl ("http://example.com/api_jsonrpc.php/x")
        = "http://example.com/x" := by
  refine ⟨rfl, ?_, rfl⟩
  decide

/-- Claim C2 (amended): if the resolved URL ends with `/api_jsonrpc.php` the
stored base URL equals the input verbatim; otherwise every (non-overlapping,
left-to-right) occurrence of `/api_jsonrpc.php` anywhere in the value is
removed — in particular a value containing no occurrence at all is stored
unchanged. -/
theorem normalize_amended (url : String) :
    (pyEndsWith url apiSuffix = true → normalizeBaseUrl url = url)
    ∧ (pyEndsWith url apiSuffix = false →
        normalizeBaseUrl url = String.mk (stripOcc apiSuffix.data url.data))
    ∧ (containsPat apiSuffix.data url.data = false → normalizeBaseUrl url = url) := by
  refine ⟨fun hend => by simp [normalizeBaseUrl, hend],
          fun hend => by simp [normalizeBaseUrl, hend],
          fun hcon => ?_⟩
  by_cases hend : pyEndsWith url apiSuffix
  · simp [normalizeBaseUrl, hend]
  · simp [normalizeBaseUrl, hend, stripOcc_of_not_contains apiSuffix.data url.data hcon]

/-- Witness for the amended C2, one concrete input per hypothesis. -/
theorem normalize_amended_witness :
    normalizeBaseUrl ("http://a/zabbix/api_jsonrpc.php")
        = "http://a/zabbix/api_jsonrpc.php"
    ∧ normalizeBaseUrl ("http://a/api_jsonrpc.php/x")
        = String.mk (stripOcc apiSuffix.data (String.data ("http://a/api_jsonrpc.php/x")))
    ∧ normalizeBaseUrl ("http://b/zabbix") = "http://b/zabbix" :=
  ⟨(normalize_amended ("http://a/zabbix/api_jsonrpc.php")).1 (by decide),
   (normalize_amended ("http://a/api_jsonrpc.php/x")).2.1 (by decide),
   (normalize_amended ("http://b/zabbix")).2.2 (by decide)⟩

/-- Claim C3: refuted by the code — a resolved URL that ends with
`/api_jsonrpc.php` is stored verbatim (the conditional on `graph.py` line 34
strips only when the URL does NOT end with the suffix), so the constructed
session's `BASE_URL` does end with the API-RPC path suffix. -/
theorem base_url_can_keep_api_suffix :
    normalizeBaseUrl ("http://localhost/zabbix/api_jsonrpc.php")
        = "http://localhost/zabbix/api_jsonrpc.php"
    ∧ pyEndsWith (normalizeBaseUrl ("http://localhost/zabbix/api_jsonrpc.php")) apiSuffix
        = true
    ∧ (GraphImage.init (some ("http://localhost/zabbix/api_jsonrpc.php"))
          none none none none none 200 []).1.BASE_URL
        = "http://localhost/zabbix/api_jsonrpc.php" := by
  refine ⟨rfl, rfl, ?_⟩
  decide

/-- Claim C4: construction issues exactly one HTTP request, a POST to
`{BASE_URL}/index.php` whose form body is exactly the three fields
`name` (resolved username), `password` (resolved password) and
`enter = "Sign in"`; and construction is a total function whose result does
not depend on the login response's status code, so a non-2xx login response
never makes it raise (the response is ignored). -/
theorem init_single_login_post (bu un pw es eu ep : Option String)
    (st : Nat) (ck : List (String × String)) :
    postRequests (GraphImage.init bu un pw es eu ep st ck).2
      = [((GraphImage.init bu un pw es eu ep st ck).1.BASE_URL ++ "/index.php",
          [("name", resolveSetting un eu defaultUser),
           ("password", resolveSetting pw ep defaultPassword),
           ("enter", "Sign in")])]
    ∧ (GraphImage.init bu un pw es eu ep st ck).2.length = 1
    ∧ ∀ st' : Nat, GraphImage.init bu un pw es eu ep st ck
        = GraphImage.init bu un pw es eu ep st' ck :=
  ⟨rfl, rfl, fun _ => rfl⟩

/-- Claim C5: with `save = True`, the chunks written to the file at
`{output_path or cwd}/graph-{graph_id}.png` are exactly the non-empty
delivered chunks in order (so a zero-length chunk is never written), the file
content is exactly the response's bytes in order, the file is opened
(create-or-truncate), and the `fClose` event is on the trace for every exit
path — the stream completing or an exception after any number of chunks. -/
theorem get_by_graph_id_save_writes_file (s : Session) (gid fd td w h : String)
    (op : Option String) (cwd : String) (chunks : List (List Nat)) :
    fileWrites (savePath op cwd gid)
        (GraphImage.get_by_graph_id s gid fd td w h true op cwd chunks none).1
      = chunks.filter (fun c => !c.isEmpty)
    ∧ fileContent (savePath op cwd gid)
        (GraphImage.get_by_graph_id s gid fd td w h true op cwd chunks none).1
      = chunks.flatten
    ∧ Event.fOpen (savePath op cwd gid)
        ∈ (GraphImage.get_by_graph_id s gid fd td w h true op cwd chunks none).1
    ∧ ∀ errAfter : Option Nat, Event.fClose (savePath op cwd gid)
        ∈ (GraphImage.get_by_graph_id s gid fd td w h true op cwd chunks errAfter).1 := by
  have hw : fileWrites (savePath op cwd gid)
      (GraphImage.get_by_graph_id s gid fd td w h true op cwd chunks none).1
        = chunks.filter (fun c => !c.isEmpty) := by
    rw [save_trace_eq, fileWrites_cons_validate, fileWrites_cons_get,
        fileWrites_cons_fOpen, fileWrites_append, fileWrites_map_fWrite,
        fileWrites_cons_fClose, fileWrites_nil, List.append_nil]
    rfl
  refine ⟨hw, ?_, ?_, fun errAfter => ?_⟩
  · rw [fileContent, hw, flatten_filter_nonempty]
  · rw [save_trace_eq]
    simp
  · rw [save_trace_eq]
    simp

/-- Claim C6: with `save = False`, the chunks written to the raw binary
standard-output stream are exactly the non-empty delivered chunks in order,
the bytes written are exactly the response's bytes in order with no extra
framing, and nothing is written to any file. -/
theorem get_by_graph_id_stdout_writes (s : Session) (gid fd td w h : String)
    (op : Option String) (cwd : String) (chunks : List (List Nat)) :
    stdoutWrites (GraphImage.get_by_graph_id s gid fd td w h false op cwd chunks none).1
      = chunks.filter (fun c => !c.isEmpty)
    ∧ stdoutBytes (GraphImage.get_by_graph_id s gid fd td w h false op cwd chunks none).1
      = chunks.flatten
    ∧ ∀ p : String,
        fileWrites p (GraphImage.get_by_graph_id s gid fd td w h false op cwd chunks none).1
          = [] := by
  have hw : stdoutWrites
      (GraphImage.get_by_graph_id s gid fd td w h false op cwd chunks none).1
        = chunks.filter (fun c => !c.isEmpty) := by
    rw [stdout_trace_eq, stdoutWrites_cons_validate, stdoutWrites_cons_get,
        stdoutWrites_map_stdoutWrite]
    rfl
  refine ⟨hw, ?_, fun p => ?_⟩
  · rw [stdoutBytes, hw, flatten_filter_nonempty]
  · rw [stdout_trace_eq, fileWrites_cons_validate, fileWrites_cons_get,
        fileWrites_map_stdoutWrite]

/-- Claim C7: every call of `get_by_graph_id` issues exactly one GET — a
streaming request to
`{BASE_URL}/chart2.php?graphid=..&from=..&to=..&profileIdx=web.graphs.filter&width=..&height=..`
carrying the session's cookie jar — and the session's cookie jar is the one
retained from the login POST at construction. -/
theorem chart_request_single_get (s : Session) (gid fd td w h : String)
    (save : Bool) (op : Option String) (cwd : String)
    (chunks : List (List Nat)) (errAfter : Option Nat) :
    getRequests (GraphImage.get_by_graph_id s gid fd td w h save op cwd chunks errAfter).1
      = [(chartUrl s.BASE_URL gid fd td w h, true, s.cookies)]
    ∧ ∀ (bu un pw es eu ep : Option String) (st : Nat) (ck : List (String × String)),
        ((GraphImage.init bu un pw es eu ep st ck).1).cookies = ck := by
  refine ⟨?_, fun bu un pw es eu ep st ck => rfl⟩
  cases save
  · rw [stdout_trace_eq, getRequests_cons_validate, getRequests_cons_get,
        getRequests_map_stdoutWrite]
  · rw [save_trace_eq, getRequests_cons_validate, getRequests_cons_get,
        getRequests_cons_fOpen, getRequests_append, getRequests_map_fWrite,
        getRequests_cons_fClose, getRequests_nil, List.append_nil]

/-- Claim C8: `get_by_itemids` deterministically fails with the same explicit
not-implemented signal — `NotImplementedError("Not yet added")` — for every
input; in particular it never returns successfully. -/
theorem get_by_itemids_always_not_implemented
    (item_ids : List String) (type : Nat) (fd td w h : String)
    (save : Bool) (op : Option String) :
    GraphImage.get_by_itemids item_ids type fd td w h save op
      = Except.error (PyExc.notImplementedError ("Not yet added"))
    ∧ ∀ u : Unit, GraphImage.get_by_itemids item_ids type fd td w h save op
        ≠ Except.ok u :=
  ⟨rfl, fun u h => by simp [GraphImage.get_by_itemids] at h⟩

/-- Claim C9: the time validator accepts any pair of time strings and always
succeeds doing nothing, and `get_by_graph_id` records its invocation as the
first event of the trace, strictly before the chart GET request. -/
theorem validate_times_noop_called_before_get (s : Session) (gid fd td w h : String)
    (save : Bool) (op : Option String) (cwd : String)
    (chunks : List (List Nat)) (errAfter : Option Nat) :
    GraphImage._validate_times fd td = ()
    ∧ ∃ rest : List Event,
        (GraphImage.get_by_graph_id s gid fd td w h save op cwd chunks errAfter).1
          = Event.validate fd td
            :: Event.get (chartUrl s.BASE_URL gid fd td w h) true s.cookies :: rest := by
  refine ⟨rfl, ?_⟩
  cases save
  · exact ⟨_, stdout_trace_eq s gid fd td w h op cwd chunks errAfter⟩
  · exact ⟨_, save_trace_eq s gid fd td w h op cwd chunks errAfter⟩

/-- Claim C10: an explicit empty-string argument is falsy under Python `or`,
so for `base_url`, `username`, `password` (via `resolveSetting`) and
`output_path` (via `pyOrD` inside `savePath`) it resolves exactly as an
absent argument does. -/
theorem empty_string_argument_falls_through (env : Option String)
    (d cwd gid : String) :
    resolveSetting (some ("")) env d = resolveSetting none env d
    ∧ pyOrD (some ("")) cwd = pyOrD none cwd
    ∧ savePath (some ("")) cwd gid = savePath none cwd gid :=
  ⟨rfl, rfl, rfl⟩
